import Mathlib

/-!
Verification of the wl-actions event-counting engine (src/actions.rs).

The embedding models the counting state (`ActionCounters`, the shared
pressed-key/button sets, and the shared scroll-debounce timestamp) and the
five protocol event handlers of `CountingKeyboardHandler`,
`CountingPointerHandler` and `CountingTouchHandler`, with time as
milliseconds (`Nat`, matching the saturating `Instant` arithmetic of the
source) and the floating-point actions-per-minute figure as a rational.
-/

namespace WlActions

/-- Key/button press state as delivered by the protocol
(`WlKeyboardKeyState` / `WlPointerButtonState`): the handlers match on
PRESSED and RELEASED and ignore every other value. -/
inductive PressState
  | pressed
  | released
  | other
deriving DecidableEq, Repr

/-- Scroll axis (`WlPointerAxis`): the continuous handler checks for
VERTICAL_SCROLL or HORIZONTAL_SCROLL; other values pass through. -/
inductive Axis
  | verticalScroll
  | horizontalScroll
  | otherAxis
deriving DecidableEq, Repr

/-- The input events observed by the counting handlers.  `Fixed`
fixed-point values are embedded as integers; they are only forwarded,
never used in the counting logic. -/
inductive Event
  | key (serial time keycode : Nat) (state : PressState)
  | button (serial time buttoncode : Nat) (state : PressState)
  | axis (time : Nat) (ax : Axis) (value : Int)
  | axisDiscrete (ax : Axis) (discrete : Int)
  | axisValue120 (ax : Axis) (value120 : Int)
  | touchDown (serial time : Nat) (id x y : Int)
deriving DecidableEq, Repr

/-- The shared counting state: the four `AtomicU64` counters of
`ActionCounters`, the two shared pressed sets, and the single shared
`last_scroll_time` `Instant` (in ms). -/
structure State where
  key_presses : Nat
  button_clicks : Nat
  scroll_steps : Nat
  touch_taps : Nat
  pressed_keys : Finset Nat
  pressed_buttons : Finset Nat
  last_scroll_time : Nat
deriving DecidableEq

/-- The state set up in `actions::main`: counters all zero
(`ActionCounters::new`), empty pressed sets, and `last_scroll_time`
initialized to `Instant::now()` at process start (line 116). -/
def initState (startTime : Nat) : State :=
  { key_presses := 0
    button_clicks := 0
    scroll_steps := 0
    touch_taps := 0
    pressed_keys := ∅
    pressed_buttons := ∅
    last_scroll_time := startTime }

/-- `CountingKeyboardHandler::handle_key`: on PRESSED, insert into the
shared set and count only if the key was not already present; on
RELEASED, remove unconditionally; forward the event afterwards. -/
def handleKey (s : State) (serial time keycode : Nat) (st : PressState) :
    State × Event :=
  let s' :=
    match st with
    | .pressed =>
        if keycode ∈ s.pressed_keys then
          { s with pressed_keys := insert keycode s.pressed_keys }
        else
          { s with pressed_keys := insert keycode s.pressed_keys
                   key_presses := s.key_presses + 1 }
    | .released => { s with pressed_keys := s.pressed_keys.erase keycode }
    | .other => s
  (s', .key serial time keycode st)

/-- `CountingPointerHandler::handle_button`: same dedup pattern as
`handle_key`, over the shared `pressed_buttons` set and the
`button_clicks` counter. -/
def handleButton (s : State) (serial time buttoncode : Nat)
    (st : PressState) : State × Event :=
  let s' :=
    match st with
    | .pressed =>
        if buttoncode ∈ s.pressed_buttons then
          { s with pressed_buttons := insert buttoncode s.pressed_buttons }
        else
          { s with pressed_buttons := insert buttoncode s.pressed_buttons
                   button_clicks := s.button_clicks + 1 }
    | .released =>
        { s with pressed_buttons := s.pressed_buttons.erase buttoncode }
    | .other => s
  (s', .button serial time buttoncode st)

/-- `CountingPointerHandler::handle_axis`: on a vertical or horizontal
scroll axis, count one step iff at least 100 ms elapsed since the shared
`last_scroll_time`, updating it; otherwise ignore for counting.  `now`
is `Instant::now()` at handling time; `now - last` is the saturating
`duration_since`. -/
def handleAxis (now : Nat) (s : State) (time : Nat) (ax : Axis)
    (value : Int) : State × Event :=
  let s' :=
    if ax = .verticalScroll ∨ ax = .horizontalScroll then
      if 100 ≤ now - s.last_scroll_time then
        { s with scroll_steps := s.scroll_steps + 1
                 last_scroll_time := now }
      else s
    else s
  (s', .axis time ax value)

/-- `CountingPointerHandler::handle_axis_discrete`: the same 100 ms
debounce against the shared `last_scroll_time`, on every axis; the
discrete step count is ignored by the counting logic. -/
def handleAxisDiscrete (now : Nat) (s : State) (ax : Axis)
    (discrete : Int) : State × Event :=
  let s' :=
    if 100 ≤ now - s.last_scroll_time then
      { s with scroll_steps := s.scroll_steps + 1
               last_scroll_time := now }
    else s
  (s', .axisDiscrete ax discrete)

/-- `CountingPointerHandler::handle_axis_value120`: the same 100 ms
debounce against the shared `last_scroll_time`, on every axis; the
value120 magnitude is ignored by the counting logic. -/
def handleAxisValue120 (now : Nat) (s : State) (ax : Axis)
    (value120 : Int) : State × Event :=
  let s' :=
    if 100 ≤ now - s.last_scroll_time then
      { s with scroll_steps := s.scroll_steps + 1
               last_scroll_time := now }
    else s
  (s', .axisValue120 ax value120)

/-- `CountingTouchHandler::handle_down`: count every touch-down and
forward it. -/
def handleDown (s : State) (serial time : Nat) (id x y : Int) :
    State × Event :=
  ({ s with touch_taps := s.touch_taps + 1 },
   .touchDown serial time id x y)

/-- Dispatch one observed event to its handler; `now` is the wall-clock
time (ms) at which the handler runs.  Returns the new state and the
event forwarded downstream. -/
def handleEvent (now : Nat) (s : State) (e : Event) : State × Event :=
  match e with
  | .key serial time k st => handleKey s serial time k st
  | .button serial time b st => handleButton s serial time b st
  | .axis time ax v => handleAxis now s time ax v
  | .axisDiscrete ax d => handleAxisDiscrete now s ax d
  | .axisValue120 ax v => handleAxisValue120 now s ax v
  | .touchDown serial time id x y => handleDown s serial time id x y

/-- Run a sequence of timed events through the handlers. -/
def runEvents (s : State) (l : List (Nat × Event)) : State :=
  l.foldl (fun s te => (handleEvent te.1 s te.2).1) s

/-- `ActionCounters::total`: keys + clicks + touch taps, scroll steps
excluded. -/
def total (s : State) : Nat :=
  s.key_presses + s.button_clicks + s.touch_taps

/-- The total computed inside `print_summary` (line 149):
`keys + clicks + scrolls + touch`, printed as
`Total actions: {} (keys + clicks)` and fed into the APM figure. -/
def summaryTotal (s : State) : Nat :=
  s.key_presses + s.button_clicks + s.scroll_steps + s.touch_taps

/-- The actions-per-minute figure of `print_summary` (lines 161-165),
with the floating-point arithmetic embedded over the rationals:
`(total / elapsedSecs) * 60` when the elapsed time is positive, `0`
otherwise. -/
def apm (tot : Nat) (elapsedSecs : ℚ) : ℚ :=
  if 0 < elapsedSecs then ((tot : ℚ) / elapsedSecs) * 60 else 0

/-- Modelled from the spec (§4.3 High-resolution units), for comparison
with the code: the spec's per-axis value120 accumulator.  Add the
incoming value to the remainder, take `steps = remainder / 120`
truncated toward zero, and if nonzero add `abs(steps)` to the counter
and subtract `steps * 120` from the remainder.  The code (the real
`handle_axis_value120` above) keeps no such accumulator. -/
def specValue120 (remainder value120 : Int) (counter : Nat) :
    Int × Nat :=
  let r := remainder + value120
  let steps := Int.tdiv r 120
  if steps = 0 then (r, counter)
  else (r - steps * 120, counter + steps.natAbs)

/-- Number of maximal contiguous held runs started by a press sequence,
given whether the identifier is currently held: a press while not held
opens a new run; a release ends the current run; other states change
nothing. -/
def heldRuns : Bool → List PressState → Nat
  | _, [] => 0
  | held, .pressed :: rest =>
      if held then heldRuns true rest else heldRuns true rest + 1
  | _, .released :: rest => heldRuns false rest
  | held, .other :: rest => heldRuns held rest

/-- Run a sequence of key-state transitions for a single keycode `k`
through `handleKey` (serial and time fields are irrelevant to the
counting logic). -/
def runKeySeq (s : State) (k : Nat) (l : List PressState) : State :=
  l.foldl (fun s st => (handleKey s 0 0 k st).1) s

/-- Run a sequence of button-state transitions for a single button code
`b` through `handleButton`. -/
def runButtonSeq (s : State) (b : Nat) (l : List PressState) : State :=
  l.foldl (fun s st => (handleButton s 0 0 b st).1) s

/-- Five consecutive high-resolution deliveries of 24 units on the
vertical axis, arriving in quick succession starting 100 ms after
process start. -/
def fiveDeliveries24 : List (Nat × Event) :=
  [(100, .axisValue120 .verticalScroll 24),
   (101, .axisValue120 .verticalScroll 24),
   (102, .axisValue120 .verticalScroll 24),
   (103, .axisValue120 .verticalScroll 24),
   (104, .axisValue120 .verticalScroll 24)]

/-- The five deliveries of 24 units followed by a delivery of 96 units
more than 100 ms after the last counted scroll. -/
def fiveThen96 : List (Nat × Event) :=
  fiveDeliveries24 ++ [(210, .axisValue120 .verticalScroll 96)]

/-- Discrete deliveries of -3 and of +3, each arriving at least 100 ms
after the previous accepted scroll. -/
def discretePair : List (Nat × Event) :=
  [(100, .axisDiscrete .verticalScroll (-3)),
   (210, .axisDiscrete .verticalScroll 3)]

/-- Continuous vertical-scroll events at t = 0 ms and t = 50 ms after
process start. -/
def contAt0and50 : List (Nat × Event) :=
  [(0, .axis 0 .verticalScroll 10), (50, .axis 50 .verticalScroll 10)]

/-- The two early continuous events followed by one at t = 150 ms. -/
def contThen150 : List (Nat × Event) :=
  contAt0and50 ++ [(150, .axis 150 .verticalScroll 10)]

theorem runKeySeq_key_presses (k : Nat) :
    ∀ (l : List PressState) (s : State),
      (runKeySeq s k l).key_presses =
        s.key_presses + heldRuns (decide (k ∈ s.pressed_keys)) l := by
  intro l
  induction l with
  | nil => intro s; simp [runKeySeq, heldRuns]
  | cons st rest ih =>
    intro s
    have hstep : runKeySeq s k (st :: rest) =
        runKeySeq ((handleKey s 0 0 k st).1) k rest := rfl
    cases st with
    | pressed =>
      by_cases hk : k ∈ s.pressed_keys
      · rw [hstep, ih]
        simp [handleKey, hk, heldRuns]
      · rw [hstep, ih]
        simp [handleKey, hk, heldRuns]
        omega
    | released =>
      rw [hstep, ih]
      simp [handleKey, heldRuns, Finset.not_mem_erase]
    | other =>
      rw [hstep, ih]
      simp [handleKey, heldRuns]

theorem runButtonSeq_button_clicks (b : Nat) :
    ∀ (l : List PressState) (s : State),
      (runButtonSeq s b l).button_clicks =
        s.button_clicks + heldRuns (decide (b ∈ s.pressed_buttons)) l := by
  intro l
  induction l with
  | nil => intro s; simp [runButtonSeq, heldRuns]
  | cons st rest ih =>
    intro s
    have hstep : runButtonSeq s b (st :: rest) =
        runButtonSeq ((handleButton s 0 0 b st).1) b rest := rfl
    cases st with
    | pressed =>
      by_cases hb : b ∈ s.pressed_buttons
      · rw [hstep, ih]
        simp [handleButton, hb, heldRuns]
      · rw [hstep, ih]
        simp [handleButton, hb, heldRuns]
        omega
    | released =>
      rw [hstep, ih]
      simp [handleButton, heldRuns, Finset.not_mem_erase]
    | other =>
      rw [hstep, ih]
      simp [handleButton, heldRuns]

/-- C4: for any sequence of press/release events on the same key or
button identifier, the corresponding counter increases by exactly the
number of maximal contiguous held runs; per event, a press of an absent
identifier counts and inserts it, a press of a present identifier does
not count, and a release removes the identifier and never counts. -/
theorem C4_press_dedup_counts_held_runs (s : State) (k b : Nat)
    (lk lb : List PressState) :
    (runKeySeq s k lk).key_presses =
        s.key_presses + heldRuns (decide (k ∈ s.pressed_keys)) lk ∧
    (runButtonSeq s b lb).button_clicks =
        s.button_clicks + heldRuns (decide (b ∈ s.pressed_buttons)) lb ∧
    (handleKey s 0 0 k .pressed).1.key_presses =
        (if k ∈ s.pressed_keys then s.key_presses else s.key_presses + 1) ∧
    k ∈ (handleKey s 0 0 k .pressed).1.pressed_keys ∧
    (handleKey s 0 0 k .released).1.key_presses = s.key_presses ∧
    k ∉ (handleKey s 0 0 k .released).1.pressed_keys ∧
    (handleButton s 0 0 b .pressed).1.button_clicks =
        (if b ∈ s.pressed_buttons then s.button_clicks
         else s.button_clicks + 1) ∧
    b ∈ (handleButton s 0 0 b .pressed).1.pressed_buttons ∧
    (handleButton s 0 0 b .released).1.button_clicks = s.button_clicks ∧
    b ∉ (handleButton s 0 0 b .released).1.pressed_buttons := by
  refine ⟨runKeySeq_key_presses k lk s, runButtonSeq_button_clicks b lb s,
    ?_, ?_, ?_, ?_, ?_, ?_, ?_, ?_⟩ <;>
    simp [handleKey, handleButton, Finset.not_mem_erase] <;>
    split_ifs <;> simp

/-- C7: releasing a key or button identifier that is not in the pressed
set is a complete no-op: the state is unchanged and the event is still
forwarded; no error occurs. -/
theorem C7_spurious_release_noop (s : State) (k b serial time : Nat)
    (hk : k ∉ s.pressed_keys) (hb : b ∉ s.pressed_buttons) :
    handleKey s serial time k .released =
      (s, .key serial time k .released) ∧
    handleButton s serial time b .released =
      (s, .button serial time b .released) := by
  constructor
  · simp [handleKey, Finset.erase_eq_of_not_mem hk]
  · simp [handleButton, Finset.erase_eq_of_not_mem hb]

theorem C7_spurious_release_noop_witness :
    (5 ∉ (initState 0).pressed_keys ∧ 7 ∉ (initState 0).pressed_buttons) ∧
    (handleKey (initState 0) 1 2 5 .released =
       (initState 0, .key 1 2 5 .released) ∧
     handleButton (initState 0) 1 2 7 .released =
       (initState 0, .button 1 2 7 .released)) :=
  ⟨⟨by decide, by decide⟩,
   C7_spurious_release_noop (initState 0) 5 7 1 2 (by decide) (by decide)⟩

/-- C8: every observed event is forwarded downstream with its original
fields unchanged, on every control path, whether or not it was counted,
debounced away, or treated as a duplicate. -/
theorem C8_events_forwarded_unchanged (now : Nat) (s : State)
    (e : Event) : (handleEvent now s e).2 = e := by
  cases e <;> rfl

/-- C9: each of the four counters is monotonically non-decreasing under
every handler operation. -/
theorem C9_counters_monotone (now : Nat) (s : State) (e : Event) :
    s.key_presses ≤ (handleEvent now s e).1.key_presses ∧
    s.button_clicks ≤ (handleEvent now s e).1.button_clicks ∧
    s.scroll_steps ≤ (handleEvent now s e).1.scroll_steps ∧
    s.touch_taps ≤ (handleEvent now s e).1.touch_taps := by
  cases e with
  | key serial time k st =>
    cases st with
    | pressed =>
      simp only [handleEvent, handleKey]
      split_ifs <;> simp
    | released => simp [handleEvent, handleKey]
    | other => simp [handleEvent, handleKey]
  | button serial time b st =>
    cases st with
    | pressed =>
      simp only [handleEvent, handleButton]
      split_ifs <;> simp
    | released => simp [handleEvent, handleButton]
    | other => simp [handleEvent, handleButton]
  | axis time ax v =>
    simp only [handleEvent, handleAxis]
    split_ifs <;> simp
  | axisDiscrete ax d =>
    simp only [handleEvent, handleAxisDiscrete]
    split_ifs <;> simp
  | axisValue120 ax v =>
    simp only [handleEvent, handleAxisValue120]
    split_ifs <;> simp
  | touchDown serial time id x y =>
    simp [handleEvent, handleDown]

/-- C1 counterexample: the code keeps no value120 remainder.  A single
delivery of 24 units arriving 100 ms after process start is counted as
one full scroll step by `handle_axis_value120`, while the claimed
remainder algorithm (steps = 24 / 120 = 0) would leave the counter at
0: the two disagree at this concrete input. -/
theorem C1_counterexample_value120_no_remainder :
    (handleAxisValue120 100 (initState 0) .verticalScroll 24).1.scroll_steps
      = 1 ∧
    (specValue120 0 24 0).2 = 0 ∧ (1 : Nat) ≠ 0 := by
  decide

/-- C1 amended: `handle_axis_value120` applies the shared 100 ms
debounce and ignores the value's sign and magnitude: a delivery at
least 100 ms after the last accepted scroll adds exactly 1 to the
scroll counter and updates the timestamp.  Five rapid deliveries of 24
units increase the counter by exactly 1 (only the first is counted, by
debounce rather than by accumulation to 120), and a following delivery
of 96 units more than 100 ms later increases it by exactly 1 more. -/
theorem C1_amended_value120_debounced (s : State) (now : Nat)
    (ax : Axis) (v : Int) (h : 100 ≤ now - s.last_scroll_time) :
    (handleAxisValue120 now s ax v).1 =
      { s with scroll_steps := s.scroll_steps + 1
               last_scroll_time := now } ∧
    (runEvents (initState 0) fiveDeliveries24).scroll_steps = 1 ∧
    (runEvents (initState 0) fiveThen96).scroll_steps = 2 := by
  refine ⟨?_, by decide, by decide⟩
  simp [handleAxisValue120, h]

theorem C1_amended_value120_debounced_witness :
    100 ≤ 100 - (initState 0).last_scroll_time ∧
    ((handleAxisValue120 100 (initState 0) .verticalScroll 24).1 =
       { initState 0 with
           scroll_steps := (initState 0).scroll_steps + 1
           last_scroll_time := 100 } ∧
     (runEvents (initState 0) fiveDeliveries24).scroll_steps = 1 ∧
     (runEvents (initState 0) fiveThen96).scroll_steps = 2) :=
  ⟨by decide,
   C1_amended_value120_debounced (initState 0) 100 .verticalScroll 24
     (by decide)⟩

/-- C2 counterexample: a discrete delivery of -3 arriving 100 ms after
process start increases the scroll counter by 1, not by abs(-3) = 3:
`handle_axis_discrete` debounces and ignores the step count. -/
theorem C2_counterexample_discrete_not_abs :
    (handleAxisDiscrete 100 (initState 0) .verticalScroll (-3)).1.scroll_steps
      = 1 ∧
    (initState 0).scroll_steps + (Int.natAbs (-3)) = 3 ∧
    (1 : Nat) ≠ 3 := by
  decide

/-- C2 amended: `handle_axis_discrete` applies the shared 100 ms
debounce and ignores the step count entirely: a discrete event at
least 100 ms after the last accepted scroll adds exactly 1 to the
scroll counter (never abs(n)) and updates the timestamp; deliveries of
-3 and of +3, each spaced at least 100 ms apart, increase the counter
by exactly 1 each. -/
theorem C2_amended_discrete_debounced (s : State) (now : Nat)
    (ax : Axis) (n : Int) (h : 100 ≤ now - s.last_scroll_time) :
    (handleAxisDiscrete now s ax n).1 =
      { s with scroll_steps := s.scroll_steps + 1
               last_scroll_time := now } ∧
    (runEvents (initState 0) [(100, .axisDiscrete .verticalScroll (-3))]).scroll_steps
      = 1 ∧
    (runEvents (initState 0) discretePair).scroll_steps = 2 := by
  refine ⟨?_, by decide, by decide⟩
  simp [handleAxisDiscrete, h]

theorem C2_amended_discrete_debounced_witness :
    100 ≤ 100 - (initState 0).last_scroll_time ∧
    ((handleAxisDiscrete 100 (initState 0) .verticalScroll (-3)).1 =
       { initState 0 with
           scroll_steps := (initState 0).scroll_steps + 1
           last_scroll_time := 100 } ∧
     (runEvents (initState 0) [(100, .axisDiscrete .verticalScroll (-3))]).scroll_steps
       = 1 ∧
     (runEvents (initState 0) discretePair).scroll_steps = 2) :=
  ⟨by decide,
   C2_amended_discrete_debounced (initState 0) 100 .verticalScroll (-3)
     (by decide)⟩

/-- C3 counterexample: the debounce timestamp starts at process start,
not at the first event, so continuous scroll events at t = 0 ms and
t = 50 ms are both inside the initial 100 ms window and yield 0 counted
steps, not the claimed 1. -/
theorem C3_counterexample_early_events_not_counted :
    (runEvents (initState 0) contAt0and50).scroll_steps = 0 ∧
    (0 : Nat) ≠ 1 := by
  decide

/-- C3 amended: a continuous event on a scroll axis is counted as
exactly one step iff at least 100 ms elapsed since the stored
last-scroll timestamp, which is initialized to process start and
updated on acceptance; consequently events at t = 0 ms and t = 50 ms
yield 0 counted steps, and a further event at t = 150 ms yields the
first counted step (not a second). -/
theorem C3_amended_axis_debounce_from_start (s : State)
    (now time : Nat) (ax : Axis) (v : Int)
    (hax : ax = .verticalScroll ∨ ax = .horizontalScroll)
    (h : 100 ≤ now - s.last_scroll_time) :
    (handleAxis now s time ax v).1 =
      { s with scroll_steps := s.scroll_steps + 1
               last_scroll_time := now } ∧
    (initState 0).last_scroll_time = 0 ∧
    (runEvents (initState 0) contAt0and50).scroll_steps = 0 ∧
    (runEvents (initState 0) contThen150).scroll_steps = 1 := by
  refine ⟨?_, by decide, by decide, by decide⟩
  simp [handleAxis, hax, h]

theorem C3_amended_axis_debounce_from_start_witness :
    ((Axis.verticalScroll = Axis.verticalScroll ∨
      Axis.verticalScroll = Axis.horizontalScroll) ∧
     100 ≤ 150 - (initState 0).last_scroll_time) ∧
    ((handleAxis 150 (initState 0) 150 .verticalScroll 10).1 =
       { initState 0 with
           scroll_steps := (initState 0).scroll_steps + 1
           last_scroll_time := 150 } ∧
     (initState 0).last_scroll_time = 0 ∧
     (runEvents (initState 0) contAt0and50).scroll_steps = 0 ∧
     (runEvents (initState 0) contThen150).scroll_steps = 1) :=
  ⟨⟨by decide, by decide⟩,
   C3_amended_axis_debounce_from_start (initState 0) 150 150
     .verticalScroll 10 (by decide) (by decide)⟩

/-- C5: code-bug evidence.  After one counted scroll step (and nothing
else), `ActionCounters::total` returns 0 (keys + clicks + touch taps,
scrolls excluded), but the total computed and printed by
`print_summary` — labelled "(keys + clicks)" — is 1, because it adds
the scroll counter (and touch) into the sum.  The summary total does
not equal `total()`. -/
theorem C5_summary_total_contradicts_total :
    total (handleAxisDiscrete 100 (initState 0) .verticalScroll 1).1 = 0 ∧
    summaryTotal (handleAxisDiscrete 100 (initState 0) .verticalScroll 1).1
      = 1 ∧
    total (handleAxisDiscrete 100 (initState 0) .verticalScroll 1).1 ≠
      summaryTotal (handleAxisDiscrete 100 (initState 0) .verticalScroll 1).1 := by
  decide

/-- C6: the actions-per-minute figure equals total / elapsedSeconds * 60
whenever elapsedSeconds > 0, and is defined as 0 when elapsedSeconds is
0 (no division fault); total 60 over 60 s gives 60, and elapsed 0 gives
0. -/
theorem C6_apm_formula (tot : Nat) (e : ℚ) (he : 0 < e) :
    apm tot e = (tot : ℚ) / e * 60 ∧ apm tot 0 = 0 ∧
    apm 60 60 = 60 ∧ apm 60 0 = 0 := by
  refine ⟨by simp [apm, he], by simp [apm], by norm_num [apm],
    by simp [apm]⟩

theorem C6_apm_formula_witness :
    0 < (60 : ℚ) ∧
    (apm 60 60 = (60 : ℚ) / 60 * 60 ∧ apm 60 0 = 0 ∧
     apm 60 60 = 60 ∧ apm 60 0 = 0) :=
  ⟨by norm_num, C6_apm_formula 60 60 (by norm_num)⟩

/-- C10: the debounce timestamp is initialized to process start and a
single instance is shared by all three scroll shapes and both axes:
any scroll event of any shape arriving less than 100 ms after process
start is not counted even though nothing was counted before it, and a
counted scroll of one shape starts a 100 ms window that suppresses
counting of every other shape and axis. -/
theorem C10_shared_debounce_clock (start now t now2 time time2 : Nat)
    (s : State) (ax ax1 ax2 : Axis) (v d w : Int)
    (h1 : now - start < 100)
    (h2 : 100 ≤ t - s.last_scroll_time)
    (h3 : now2 - t < 100) :
    (initState start).last_scroll_time = start ∧
    (handleAxis now (initState start) time ax v).1.scroll_steps = 0 ∧
    (handleAxisDiscrete now (initState start) ax d).1.scroll_steps = 0 ∧
    (handleAxisValue120 now (initState start) ax v).1.scroll_steps = 0 ∧
    (handleAxisValue120 t s ax1 v).1.scroll_steps = s.scroll_steps + 1 ∧
    (handleAxis now2 (handleAxisValue120 t s ax1 v).1 time2 ax2 w).1.scroll_steps
      = s.scroll_steps + 1 ∧
    (handleAxisDiscrete now2 (handleAxisValue120 t s ax1 v).1 ax2 d).1.scroll_steps
      = s.scroll_steps + 1 := by
  have hn : ¬ (100 ≤ now - start) := by omega
  have hs1 : (handleAxisValue120 t s ax1 v).1 =
      { s with scroll_steps := s.scroll_steps + 1
               last_scroll_time := t } := by
    simp [handleAxisValue120, h2]
  have hn2 : ¬ (100 ≤ now2 - t) := by omega
  refine ⟨rfl, ?_, ?_, ?_, ?_, ?_, ?_⟩
  · simp [handleAxis, initState, hn]
  · simp [handleAxisDiscrete, initState, hn]
  · simp [handleAxisValue120, initState, hn]
  · rw [hs1]
  · rw [hs1]
    simp [handleAxis, hn2]
  · rw [hs1]
    simp [handleAxisDiscrete, hn2]

theorem C10_shared_debounce_clock_witness :
    (50 - 0 < 100 ∧ 100 ≤ 100 - (initState 0).last_scroll_time ∧
     150 - 100 < 100) ∧
    ((initState 0).last_scroll_time = 0 ∧
     (handleAxis 50 (initState 0) 50 .verticalScroll 10).1.scroll_steps
       = 0 ∧
     (handleAxisDiscrete 50 (initState 0) .verticalScroll 3).1.scroll_steps
       = 0 ∧
     (handleAxisValue120 50 (initState 0) .verticalScroll 10).1.scroll_steps
       = 0 ∧
     (handleAxisValue120 100 (initState 0) .verticalScroll 10).1.scroll_steps
       = (initState 0).scroll_steps + 1 ∧
     (handleAxis 150 (handleAxisValue120 100 (initState 0) .verticalScroll 10).1
        150 .horizontalScroll 10).1.scroll_steps
       = (initState 0).scroll_steps + 1 ∧
     (handleAxisDiscrete 150
        (handleAxisValue120 100 (initState 0) .verticalScroll 10).1
        .horizontalScroll 3).1.scroll_steps
       = (initState 0).scroll_steps + 1) :=
  ⟨⟨by decide, by decide, by decide⟩,
   C10_shared_debounce_clock 0 50 100 150 50 150 (initState 0)
     .verticalScroll .verticalScroll .horizontalScroll 10 3 10
     (by decide) (by decide) (by decide)⟩

end WlActions
